import Mathlib

/-
Verification of the device-identity reconciliation hooks of this repository.

The source consists of PocketBase JavaScript hooks:
  pb_hooks/device_cleanup_cron.pb.js    - daily batch sweep "device_cleanup"
  pb_hooks/simple_device_cleanup.pb.js  - test sweep "simple_test"
  pb_hooks/test_cleanup_trigger.pb.js   - test sweep + "monthly_cleanup" archival pass
  unnamed/part_000, unnamed/part_001    - single-insert hooks (identical logic)

Modeling conventions:
  - timestamps are natural numbers (ISO strings compare the same way);
  - a record field that can be missing/null is an Option;
  - the JavaScript truthiness test on a fingerprint string treats the empty
    string like an absent value;
  - Array.prototype.sort with comparator (b - a) is a stable descending sort,
    modeled by an insertion sort that keeps ties in input order;
  - every call of new Date().toISOString() inside one pass is modeled by a
    single pass-wide clock value now;
  - the record store is a list in rowid (insertion) order; a query is a sort
    plus a take of the limit; SQL DESC puts NULL last, modeled by treating
    none as the smallest key;
  - saveRecord may fail: a failure predicate on record ids selects which
    saves throw.  device_cleanup wraps the whole pass in one try/catch, so a
    throwing save aborts every later save of the pass; monthly_cleanup has a
    per-record try/catch, so a throwing save only skips that record.
-/

namespace DeviceHooks

structure DeviceRecord where
  id : Nat
  fingerprint : Option String
  userId : Option Nat
  currentUserId : Option Nat
  active : Bool
  sessionStatus : String
  lastActivity : Option Nat
  lastUsed : Option Nat
  created : Option Nat
  sessionStart : Option Nat
  notes : Option String
deriving Repr, DecidableEq

/-- JS truthiness of `device.get("device_fingerprint")`: null/absent and the
empty string are both falsy. -/
def hasFingerprint (r : DeviceRecord) : Bool :=
  match r.fingerprint with
  | none => false
  | some s => !(s == "")

/-- `a.get("last_activity") || a.get("last_used") || a.get("created") || 0`
(device_cleanup_cron.pb.js lines 59-60, and existing devices in the
single-insert hook, line 51 of unnamed/part_000). -/
def effActivityCron (r : DeviceRecord) : Nat :=
  r.lastActivity.getD (r.lastUsed.getD (r.created.getD 0))

/-- `a.get("last_activity") || a.get("created") || 0`
(simple_device_cleanup.pb.js lines 44-45): no last_used fallback. -/
def effActivitySimple (r : DeviceRecord) : Nat :=
  r.lastActivity.getD (r.created.getD 0)

/-- `newDevice.get("last_used") || newDevice.get("created") || new Date()`
(unnamed/part_000 line 48): the new record is ranked without last_activity. -/
def newRecordActivity (r : DeviceRecord) (now : Nat) : Nat :=
  r.lastUsed.getD (r.created.getD now)

/-- Insert an element into a sorted list, keeping it before the first element
it may precede (leB a b = "a may come before b"). -/
def sortInsert (leB : α → α → Bool) (a : α) : List α → List α
  | [] => [a]
  | b :: bs => if leB a b then a :: b :: bs else b :: sortInsert leB a bs

/-- Stable insertion sort: ties keep their input order, as guaranteed for
Array.prototype.sort by the ECMAScript standard. -/
def stableSort (leB : α → α → Bool) : List α → List α
  | [] => []
  | a :: as => sortInsert leB a (stableSort leB as)

/-- The in-group sort of the batch sweep (comparator bActivity - aActivity,
descending by effActivityCron, ties stable). -/
def sortCron (g : List DeviceRecord) : List DeviceRecord :=
  stableSort (fun a b => decide (effActivityCron b ≤ effActivityCron a)) g

/-- The in-group sort of the simple test sweep (descending by
effActivitySimple, ties stable). -/
def sortSimple (g : List DeviceRecord) : List DeviceRecord :=
  stableSort (fun a b => decide (effActivitySimple b ≤ effActivitySimple a)) g

/-- Grouping key: the fingerprint when it is truthy, nothing otherwise. -/
def fpKey (r : DeviceRecord) : Option String :=
  if hasFingerprint r then r.fingerprint else none

/-- Keys of a JS object in insertion order of their first occurrence. -/
def firstOccur : List String → List String
  | [] => []
  | s :: rest => s :: (firstOccur rest).filter (fun t => !(t == s))

/-- The fingerprints the pass groups by, in first-occurrence order. -/
def fps (devices : List DeviceRecord) : List String :=
  firstOccur (devices.filterMap fpKey)

/-- The fingerprint group of fp: every considered record with that
fingerprint, in considered order. -/
def groupOf (devices : List DeviceRecord) (fp : String) : List DeviceRecord :=
  devices.filter (fun r => r.fingerprint == some fp)

/-- `Deactivated by cleanup job on <ISO-timestamp>`. -/
def cleanupNote (now : Nat) : String :=
  "Deactivated by cleanup job on " ++ toString now

/-- `Archived by monthly cleanup on <ISO-timestamp> (90+ days inactive)`. -/
def archiveNote (now : Nat) : String :=
  "Archived by monthly cleanup on " ++ toString now ++ " (90+ days inactive)"

/-- `existingNotes ? existingNotes + "; " + note : note` where existingNotes
is `get("notes") || ""`. -/
def appendNote (notes : Option String) (note : String) : String :=
  let existing := notes.getD ""
  if existing == "" then note else existing ++ "; " ++ note

/-- Primary transition of the batch sweep (device_cleanup_cron.pb.js lines
69-71): active, session_status from current_user_id, stamp last_activity. -/
def primaryTransition (now : Nat) (r : DeviceRecord) : DeviceRecord :=
  { r with active := true,
           sessionStatus := if r.currentUserId.isSome then "active" else "logged_out",
           lastActivity := some now }

/-- Full loser transition of the batch sweep (device_cleanup_cron.pb.js
lines 82-91): deactivate, clear session fields, stamp, append audit note. -/
def loserTransitionCron (now : Nat) (r : DeviceRecord) : DeviceRecord :=
  { r with active := false,
           sessionStatus := "logged_out",
           lastActivity := some now,
           currentUserId := none,
           sessionStart := none,
           notes := some (appendNote r.notes (cleanupNote now)) }

/-- Light loser transition of the simple sweep and of the single-insert hook
(simple_device_cleanup.pb.js lines 54-56, unnamed/part_000 lines 97-99):
only active, session_status and last_activity are touched. -/
def loserTransitionLight (now : Nat) (r : DeviceRecord) : DeviceRecord :=
  { r with active := false,
           sessionStatus := "logged_out",
           lastActivity := some now }

/-- One duplicate group of the batch sweep: sort by activity descending,
promote the head, give every other member the full loser transition.  The
returned list is the sequence of saveRecord calls for the group. -/
def groupPlan (now : Nat) (g : List DeviceRecord) : List DeviceRecord :=
  match sortCron g with
  | [] => []
  | p :: losers => primaryTransition now p :: losers.map (loserTransitionCron now)

/-- Concatenation of the per-key plans, in key order. -/
def concatMap (f : α → List β) : List α → List β
  | [] => []
  | a :: as => f a ++ concatMap f as

/-- The sequence of saveRecord calls of one run of the device_cleanup batch
sweep over the queried records: groups of size at most 1 are skipped. -/
def device_cleanup_plan (devices : List DeviceRecord) (now : Nat) : List DeviceRecord :=
  concatMap (fun fp =>
    if 1 < (groupOf devices fp).length then groupPlan now (groupOf devices fp) else [])
    (fps devices)

/-- One duplicate group of the simple test sweep: the head is left untouched
(no primary save), the rest get the light loser transition. -/
def simpleGroupPlan (now : Nat) (g : List DeviceRecord) : List DeviceRecord :=
  match sortSimple g with
  | [] => []
  | _ :: losers => losers.map (loserTransitionLight now)

/-- The sequence of saveRecord calls of one run of the simple_test sweep. -/
def simple_test_plan (devices : List DeviceRecord) (now : Nat) : List DeviceRecord :=
  concatMap (fun fp =>
    if 1 < (groupOf devices fp).length then simpleGroupPlan now (groupOf devices fp) else [])
    (fps devices)

/-- Archival transition of the monthly_cleanup pass (test_cleanup_trigger
lines 196-199): append the archive note and set session_status archived. -/
def monthlyArchive (now : Nat) (r : DeviceRecord) : DeviceRecord :=
  { r with notes := some (appendNote r.notes (archiveNote now)),
           sessionStatus := "archived" }

/-- The sequence of saveRecord calls of one run of the monthly_cleanup pass
over its queried records. -/
def monthly_cleanup_plan (devices : List DeviceRecord) (now : Nat) : List DeviceRecord :=
  devices.map (monthlyArchive now)

/-- SQL comparison of nullable timestamp columns: NULL is below every value,
so ORDER BY col DESC puts NULL last. -/
def optLt (a b : Option Nat) : Bool :=
  match a, b with
  | none, none => false
  | none, some _ => true
  | some _, none => false
  | some x, some y => decide (x < y)

/-- Strictly-smaller sort key for ORDER BY last_activity DESC, last_used
DESC, created DESC (the query of the batch sweep). -/
def keyLt3 (a b : DeviceRecord) : Bool :=
  optLt a.lastActivity b.lastActivity ||
    (a.lastActivity == b.lastActivity &&
      (optLt a.lastUsed b.lastUsed ||
        (a.lastUsed == b.lastUsed && optLt a.created b.created)))

/-- Strictly-smaller sort key for ORDER BY last_activity DESC, last_used
DESC (the query of the single-insert hook). -/
def keyLt2 (a b : DeviceRecord) : Bool :=
  optLt a.lastActivity b.lastActivity ||
    (a.lastActivity == b.lastActivity && optLt a.lastUsed b.lastUsed)

/-- The query of the batch sweep (device_cleanup_cron.pb.js lines 11-17):
all records, sorted -last_activity,-last_used,-created, LIMIT 500. -/
def cronQuery (store : List DeviceRecord) : List DeviceRecord :=
  (stableSort (fun a b => !(keyLt3 a b)) store).take 500

/-- The query of the simple test sweep (simple_device_cleanup.pb.js line
14): no filter, no sort, LIMIT 10, so the first 10 rows in rowid order. -/
def simpleQuery (store : List DeviceRecord) : List DeviceRecord :=
  store.take 10

/-- The query of the single-insert hook (unnamed/part_000 lines 24-34):
same fingerprint, different id, sorted -last_activity,-last_used, LIMIT 50. -/
def singleInsertQuery (store : List DeviceRecord) (newDevice : DeviceRecord) :
    List DeviceRecord :=
  (stableSort (fun a b => !(keyLt2 a b))
    (store.filter (fun d =>
      d.fingerprint == newDevice.fingerprint && d.id != newDevice.id))).take 50

/-- The query of the monthly_cleanup pass (test_cleanup_trigger.pb.js lines
176-183): active = false and last_activity < cutoff (NULL compares as
unknown, hence excluded), LIMIT 100. -/
def monthlyQuery (store : List DeviceRecord) (cutoff : Nat) : List DeviceRecord :=
  (store.filter (fun r =>
    r.active == false &&
      (match r.lastActivity with
       | some t => decide (t < cutoff)
       | none => false))).take 100

/-- Primary selection of the single-insert hook (unnamed/part_000 lines
47-56): start from the new record, replace the incumbent only on a strictly
more recent activity, so ties keep the incumbent. -/
def selectPrimary (newDevice : DeviceRecord) (existing : List DeviceRecord)
    (now : Nat) : DeviceRecord × Nat :=
  existing.foldl
    (fun acc d =>
      let dAct := effActivityCron d
      if acc.2 < dAct then (d, dAct) else acc)
    (newDevice, newRecordActivity newDevice now)

/-- Merge applied to a winning existing record (unnamed/part_000 lines
63-68): take over the new record's user, activate, stamp, open a session. -/
def mergeIntoPrimary (newDevice p : DeviceRecord) (now : Nat) : DeviceRecord :=
  { p with userId := newDevice.userId,
           currentUserId := newDevice.userId,
           lastActivity := some now,
           active := true,
           sessionStatus := "active",
           sessionStart := some now }

/-- Update applied to the new record when it wins (unnamed/part_000 lines
82-85): session fields and stamp; note that active is not set. -/
def promoteNew (newDevice : DeviceRecord) (now : Nat) : DeviceRecord :=
  { newDevice with currentUserId := newDevice.userId,
                   sessionStatus := "active",
                   sessionStart := some now,
                   lastActivity := some now }

/-- A store side effect of a pass: an upsert or a physical delete. -/
inductive Effect where
  | save (r : DeviceRecord)
  | del (id : Nat)
deriving Repr, DecidableEq

/-- The store effects of one run of the single-insert hook (unnamed/part_000
and part_001, identical logic): nothing without a truthy fingerprint or
without siblings; otherwise either merge-and-delete (existing record wins)
or promote the new record, then lightly deactivate the other siblings. -/
def singleInsert_effects (newDevice : DeviceRecord) (existing : List DeviceRecord)
    (now : Nat) : List Effect :=
  if hasFingerprint newDevice then
    if existing.isEmpty then []
    else
      if (selectPrimary newDevice existing now).1.id ≠ newDevice.id then
        Effect.save
            (mergeIntoPrimary newDevice (selectPrimary newDevice existing now).1 now) ::
          Effect.del newDevice.id ::
          (existing.filter (fun d => d.id != (selectPrimary newDevice existing now).1.id)).map
            (fun d => Effect.save (loserTransitionLight now d))
      else
        Effect.save (promoteNew newDevice now) ::
          (existing.filter (fun d => d.id != (selectPrimary newDevice existing now).1.id)).map
            (fun d => Effect.save (loserTransitionLight now d))
  else []

/-- The store effects of the batch sweep: saves only, never a delete. -/
def device_cleanup_effects (devices : List DeviceRecord) (now : Nat) : List Effect :=
  (device_cleanup_plan devices now).map Effect.save

/-- The store effects of the simple test sweep: saves only. -/
def simple_test_effects (devices : List DeviceRecord) (now : Nat) : List Effect :=
  (simple_test_plan devices now).map Effect.save

/-- The store effects of the monthly archival pass: saves only. -/
def monthly_cleanup_effects (devices : List DeviceRecord) (now : Nat) : List Effect :=
  (monthly_cleanup_plan devices now).map Effect.save

/-- Saves reaching the store under a single pass-wide try/catch
(device_cleanup_cron.pb.js lines 9 and 110): the first throwing saveRecord
aborts every later save of the pass. -/
def runSavesAbort (fails : Nat → Bool) : List DeviceRecord → List DeviceRecord
  | [] => []
  | r :: rs => if fails r.id then [] else r :: runSavesAbort fails rs

/-- Saves reaching the store under a per-record try/catch
(test_cleanup_trigger.pb.js lines 195-206): a throwing saveRecord only
skips its own record. -/
def runSavesSkip (fails : Nat → Bool) : List DeviceRecord → List DeviceRecord
  | [] => []
  | r :: rs => if fails r.id then runSavesSkip fails rs else r :: runSavesSkip fails rs

/-- Apply a sequence of upserts-by-id to the store. -/
def applySaves (saves : List DeviceRecord) (store : List DeviceRecord) :
    List DeviceRecord :=
  saves.foldl (fun st s => st.map (fun r => if r.id = s.id then s else r)) store

/-- A failure-free store. -/
def noFail : Nat → Bool := fun _ => false

/-- Store-level result of one device_cleanup run: query, plan, execute the
saves under the pass-wide try/catch, apply the survivors to the store. -/
def device_cleanup_run (store : List DeviceRecord) (now : Nat)
    (fails : Nat → Bool) : List DeviceRecord :=
  applySaves (runSavesAbort fails (device_cleanup_plan (cronQuery store) now)) store

/-- Store-level result of one monthly_cleanup run, with its per-record
try/catch. -/
def monthly_cleanup_run (store : List DeviceRecord) (cutoff now : Nat)
    (fails : Nat → Bool) : List DeviceRecord :=
  applySaves (runSavesSkip fails (monthly_cleanup_plan (monthlyQuery store cutoff) now)) store

/-- The leftmost element attaining the maximal key: what a stable descending
sort puts at the head. -/
def firstMax (f : α → Nat) : List α → Option α
  | [] => none
  | a :: as =>
    match firstMax f as with
    | none => some a
    | some b => if f a < f b then some b else some a

/-- The observable reconciliation outcome of a record list: id, active flag
and session status of each record, in order. -/
def assignOf (l : List DeviceRecord) : List (Nat × Bool × String) :=
  l.map (fun r => (r.id, r.active, r.sessionStatus))

/-- A blank record, base for the concrete test records below. -/
def baseRec : DeviceRecord :=
  { id := 0, fingerprint := none, userId := none, currentUserId := none,
    active := false, sessionStatus := "logged_out", lastActivity := none,
    lastUsed := none, created := none, sessionStart := none, notes := none }

/-- Older record of a duplicate pair; its created timestamp is larger than
its sibling's. -/
def cA : DeviceRecord :=
  { baseRec with id := 1, fingerprint := some "f", lastActivity := some 10,
                 created := some 5 }

/-- Most recently active record of the duplicate pair, currently the
active one with a bound user. -/
def cB : DeviceRecord :=
  { baseRec with id := 2, fingerprint := some "f", lastActivity := some 20,
                 created := some 2, active := true, currentUserId := some 7 }

/-- Inactive record with the higher id of a timestamp-tied pair, listed
first in query order. -/
def tA : DeviceRecord :=
  { baseRec with id := 5, fingerprint := some "f", lastActivity := some 10 }

/-- Active record with the lower id of the timestamp-tied pair. -/
def tB : DeviceRecord :=
  { baseRec with id := 2, fingerprint := some "f", lastActivity := some 10,
                 active := true }

/-- Record with no last_activity but a recent last_used. -/
def xX : DeviceRecord :=
  { baseRec with id := 1, fingerprint := some "f", lastUsed := some 50,
                 created := some 10 }

/-- Record with a last_activity between xX's created and last_used. -/
def xY : DeviceRecord :=
  { baseRec with id := 2, fingerprint := some "f", lastActivity := some 20,
                 active := true }

/-- Most recent record of a duplicate pair handled by the simple sweep. -/
def pP : DeviceRecord :=
  { baseRec with id := 1, fingerprint := some "h", lastActivity := some 20 }

/-- Losing record of that pair, carrying a session and audit notes. -/
def pL : DeviceRecord :=
  { baseRec with id := 2, fingerprint := some "h", lastActivity := some 10,
                 currentUserId := some 7, sessionStart := some 3,
                 notes := some "n", active := true }

/-- Primary of a three-record duplicate group. -/
def fP : DeviceRecord :=
  { baseRec with id := 1, fingerprint := some "f", lastActivity := some 30 }

/-- First loser of the three-record group. -/
def fL1 : DeviceRecord :=
  { baseRec with id := 2, fingerprint := some "f", lastActivity := some 20,
                 active := true }

/-- Second loser of the three-record group. -/
def fL2 : DeviceRecord :=
  { baseRec with id := 3, fingerprint := some "f", lastActivity := some 10,
                 active := true }

/-- Store in which only the save of record 2 throws. -/
def failsAt2 : Nat → Bool := fun n => n == 2

/-- A newly created device with a bound user and no activity yet. -/
def dN : DeviceRecord :=
  { baseRec with id := 10, fingerprint := some "f", userId := some 4,
                 created := some 5 }

/-- An existing device with the same fingerprint and recent activity. -/
def dE : DeviceRecord :=
  { baseRec with id := 3, fingerprint := some "f", lastActivity := some 50 }

/-- An archived record that shares its fingerprint with a live duplicate. -/
def aAr : DeviceRecord :=
  { baseRec with id := 1, fingerprint := some "g", sessionStatus := "archived",
                 lastActivity := some 5 }

/-- The live duplicate of the archived record. -/
def aFr : DeviceRecord :=
  { baseRec with id := 2, fingerprint := some "g", lastActivity := some 50,
                 active := true }

/-- An archived record whose fingerprint is unique in the store. -/
def wAr : DeviceRecord :=
  { baseRec with id := 9, fingerprint := some "z", sessionStatus := "archived",
                 lastActivity := some 1 }

/-- A duplicate pair unrelated to the archived record. -/
def wD1 : DeviceRecord :=
  { baseRec with id := 1, fingerprint := some "k", lastActivity := some 20 }

/-- The other half of the unrelated duplicate pair. -/
def wD2 : DeviceRecord :=
  { baseRec with id := 2, fingerprint := some "k", lastActivity := some 10,
                 active := true }

/-- A record with no fingerprint at all. -/
def nF : DeviceRecord :=
  { baseRec with id := 9, lastActivity := some 99, active := true }

/-- Membership in an insertion step. -/
lemma mem_sortInsert (leB : α → α → Bool) (a x : α) :
    ∀ l : List α, x ∈ sortInsert leB a l ↔ x = a ∨ x ∈ l := by
  intro l
  induction l with
  | nil => simp [sortInsert]
  | cons b bs ih =>
    by_cases h : leB a b
    · simp [sortInsert, h]
    · simp only [sortInsert, h, Bool.false_eq_true, if_false, List.mem_cons, ih]
      tauto

/-- The stable sort permutes membership. -/
lemma mem_stableSort (leB : α → α → Bool) (x : α) :
    ∀ l : List α, x ∈ stableSort leB l ↔ x ∈ l := by
  intro l
  induction l with
  | nil => simp [stableSort]
  | cons a as ih => simp [stableSort, mem_sortInsert, ih]

/-- An insertion step never yields the empty list. -/
lemma sortInsert_ne_nil (leB : α → α → Bool) (a : α) (l : List α) :
    sortInsert leB a l ≠ [] := by
  cases l with
  | nil => simp [sortInsert]
  | cons b bs =>
    by_cases h : leB a b <;> simp [sortInsert, h]

/-- The stable sort of a nonempty list is nonempty. -/
lemma stableSort_eq_nil (leB : α → α → Bool) :
    ∀ l : List α, stableSort leB l = [] ↔ l = [] := by
  intro l
  cases l with
  | nil => simp [stableSort]
  | cons a as => simp [stableSort, sortInsert_ne_nil]

/-- The head of the stable descending sort is the leftmost element with the
maximal key: ties break by input position, not by any record content. -/
lemma stableSort_head (f : α → Nat) :
    ∀ l : List α,
      (stableSort (fun a b => decide (f b ≤ f a)) l).head? = firstMax f l := by
  intro l
  induction l with
  | nil => rfl
  | cons a as ih =>
    show (sortInsert _ a (stableSort _ as)).head? = firstMax f (a :: as)
    cases h : stableSort (fun a b => decide (f b ≤ f a)) as with
    | nil =>
      have : firstMax f as = none := by rw [← ih, h]; rfl
      simp [sortInsert, firstMax, this]
    | cons b bs =>
      have hfm : firstMax f as = some b := by rw [← ih, h]; rfl
      by_cases hab : f b ≤ f a
      · have : ¬ f a < f b := Nat.not_lt.2 hab
        simp [sortInsert, hab, firstMax, hfm, this]
      · have : f a < f b := Nat.lt_of_not_le hab
        simp [sortInsert, hab, firstMax, hfm, this]

/-- A list whose keys are all equal is left unchanged by the stable
descending sort. -/
lemma stableSort_const (f : α → Nat) (c : Nat) :
    ∀ l : List α, (∀ x ∈ l, f x = c) →
      stableSort (fun a b => decide (f b ≤ f a)) l = l := by
  intro l
  induction l with
  | nil => intro _; rfl
  | cons a as ih =>
    intro h
    have has : stableSort (fun a b => decide (f b ≤ f a)) as = as :=
      ih (fun x hx => h x (List.mem_cons_of_mem _ hx))
    show sortInsert _ a (stableSort _ as) = a :: as
    rw [has]
    cases as with
    | nil => rfl
    | cons b bs =>
      have hb : f b ≤ f a := by
        rw [h b (by simp), h a (by simp)]
      simp [sortInsert, hb]

/-- Membership in the group sort of the batch sweep. -/
lemma mem_sortCron (g : List DeviceRecord) (x : DeviceRecord) :
    x ∈ sortCron g ↔ x ∈ g :=
  mem_stableSort _ x g

/-- Membership in the group sort of the simple sweep. -/
lemma mem_sortSimple (g : List DeviceRecord) (x : DeviceRecord) :
    x ∈ sortSimple g ↔ x ∈ g :=
  mem_stableSort _ x g

/-- Membership in a concatenation of per-key lists. -/
lemma mem_concatMap (f : α → List β) (b : β) :
    ∀ l : List α, b ∈ concatMap f l ↔ ∃ a ∈ l, b ∈ f a := by
  intro l
  induction l with
  | nil => simp [concatMap]
  | cons a as ih =>
    simp only [concatMap, List.mem_append, ih, List.mem_cons]
    constructor
    · rintro (h | ⟨c, hc, hb⟩)
      · exact ⟨a, Or.inl rfl, h⟩
      · exact ⟨c, Or.inr hc, hb⟩
    · rintro ⟨c, (rfl | hc), hb⟩
      · exact Or.inl hb
      · exact Or.inr ⟨c, hc, hb⟩

/-- First-occurrence deduplication preserves membership. -/
lemma mem_firstOccur (x : String) :
    ∀ l : List String, x ∈ firstOccur l ↔ x ∈ l := by
  intro l
  induction l with
  | nil => simp [firstOccur]
  | cons s rest ih =>
    by_cases hx : x = s
    · subst hx; simp [firstOccur]
    · simp [firstOccur, List.mem_filter, ih, hx]

/-- The grouping key is the fingerprint exactly when it is truthy. -/
lemma fpKey_eq_some (d : DeviceRecord) (fp : String) :
    fpKey d = some fp ↔ d.fingerprint = some fp ∧ fp ≠ "" := by
  constructor
  · intro h
    unfold fpKey at h
    split at h
    · rename_i ht
      refine ⟨h, ?_⟩
      unfold hasFingerprint at ht
      rw [h] at ht
      simpa using ht
    · exact absurd h (by simp)
  · rintro ⟨h1, h2⟩
    unfold fpKey hasFingerprint
    rw [h1]
    simp [h2]

/-- The fingerprints a pass groups by are exactly the truthy fingerprints
of the considered records. -/
lemma mem_fps (devices : List DeviceRecord) (fp : String) :
    fp ∈ fps devices ↔ ∃ d ∈ devices, d.fingerprint = some fp ∧ fp ≠ "" := by
  unfold fps
  rw [mem_firstOccur]
  simp [List.mem_filterMap, fpKey_eq_some]

/-- A group member is a considered record with the group's fingerprint. -/
lemma mem_groupOf (devices : List DeviceRecord) (fp : String) (d : DeviceRecord) :
    d ∈ groupOf devices fp ↔ d ∈ devices ∧ d.fingerprint = some fp := by
  unfold groupOf
  rw [List.mem_filter]
  simp

/-- Every save of a batch group plan carries the id of a group member. -/
lemma groupPlan_source (now : Nat) (g : List DeviceRecord) (s : DeviceRecord)
    (hs : s ∈ groupPlan now g) : ∃ d ∈ g, s.id = d.id := by
  unfold groupPlan at hs
  cases h : sortCron g with
  | nil => rw [h] at hs; simp at hs
  | cons p ls =>
    rw [h] at hs
    rcases List.mem_cons.1 hs with h1 | h2
    · refine ⟨p, ?_, by rw [h1]; rfl⟩
      exact (mem_sortCron g p).1 (by rw [h]; exact List.mem_cons_self p ls)
    · rcases List.mem_map.1 h2 with ⟨d, hd, rfl⟩
      refine ⟨d, ?_, rfl⟩
      exact (mem_sortCron g d).1 (by rw [h]; exact List.mem_cons_of_mem _ hd)

/-- Every save of a simple-sweep group plan carries the id of a group
member. -/
lemma simpleGroupPlan_source (now : Nat) (g : List DeviceRecord) (s : DeviceRecord)
    (hs : s ∈ simpleGroupPlan now g) : ∃ d ∈ g, s.id = d.id := by
  unfold simpleGroupPlan at hs
  cases h : sortSimple g with
  | nil => rw [h] at hs; simp at hs
  | cons p ls =>
    rw [h] at hs
    rcases List.mem_map.1 hs with ⟨d, hd, rfl⟩
    refine ⟨d, ?_, rfl⟩
    exact (mem_sortSimple g d).1 (by rw [h]; exact List.mem_cons_of_mem _ hd)

/-- Every save of a device_cleanup run comes from a duplicate group of the
considered records. -/
lemma device_cleanup_plan_source (devices : List DeviceRecord) (now : Nat)
    (s : DeviceRecord) (hs : s ∈ device_cleanup_plan devices now) :
    ∃ fp, fp ∈ fps devices ∧ 1 < (groupOf devices fp).length ∧
      ∃ d ∈ groupOf devices fp, s.id = d.id := by
  unfold device_cleanup_plan at hs
  rcases (mem_concatMap _ s _).1 hs with ⟨fp, hfp, hin⟩
  by_cases hlen : 1 < (groupOf devices fp).length
  · rw [if_pos hlen] at hin
    exact ⟨fp, hfp, hlen, groupPlan_source now _ s hin⟩
  · rw [if_neg hlen] at hin
    simp at hin

/-- Every save of a simple_test run comes from a duplicate group of the
considered records. -/
lemma simple_test_plan_source (devices : List DeviceRecord) (now : Nat)
    (s : DeviceRecord) (hs : s ∈ simple_test_plan devices now) :
    ∃ fp, fp ∈ fps devices ∧ 1 < (groupOf devices fp).length ∧
      ∃ d ∈ groupOf devices fp, s.id = d.id := by
  unfold simple_test_plan at hs
  rcases (mem_concatMap _ s _).1 hs with ⟨fp, hfp, hin⟩
  by_cases hlen : 1 < (groupOf devices fp).length
  · rw [if_pos hlen] at hin
    exact ⟨fp, hfp, hlen, simpleGroupPlan_source now _ s hin⟩
  · rw [if_neg hlen] at hin
    simp at hin

/-- The fingerprint only determines the truthiness test. -/
lemma hasFingerprint_of_eq (r t : DeviceRecord) (h : r.fingerprint = t.fingerprint) :
    hasFingerprint r = hasFingerprint t := by
  unfold hasFingerprint
  rw [h]

/-- A record none of whose ids appear among the saves survives the save
sequence unchanged. -/
lemma applySaves_frame (r : DeviceRecord) :
    ∀ (saves store : List DeviceRecord), r ∈ store →
      (∀ s ∈ saves, s.id ≠ r.id) → r ∈ applySaves saves store := by
  intro saves
  induction saves with
  | nil => intro store hr _; exact hr
  | cons s ss ih =>
    intro store hr hids
    show r ∈ applySaves ss (store.map fun t => if t.id = s.id then s else t)
    apply ih
    · have hkeep : (if r.id = s.id then s else r) = r :=
        if_neg (fun he => hids s (List.mem_cons_self s ss) he.symm)
      exact hkeep ▸ List.mem_map_of_mem _ hr
    · exact fun t ht => hids t (List.mem_cons_of_mem _ ht)

/-- Claim C1 counterexample: the batch sweep stamps every member of a
duplicate group with last_activity = now, so on a second run all effective
timestamps tie and the stable sort keeps store order; record 2 is the
primary after the first run but is deactivated by the second run, so the
final active assignment is not stable under re-running. -/
theorem reconcile_twice_flips_primary :
    ((device_cleanup_run [cA, cB] 100 noFail).find? (fun r => r.id == 2)).map
        (fun r => r.active) = some true ∧
    ((device_cleanup_run (device_cleanup_run [cA, cB] 100 noFail) 200 noFail).find?
        (fun r => r.id == 2)).map (fun r => r.active) = some false := by
  decide

/-- Claim C1 (amended): re-running the batch reconciliation on an
already-reconciled group reproduces the same primary and the same
id/active/sessionStatus assignment exactly when the group is re-presented
with the previous primary first (as the first run's save order lists it);
only the stamped last_activity and the notes differ. -/
theorem reconcile_twice_assign_eq_of_primary_first (now1 now2 : Nat)
    (g : List DeviceRecord) :
    assignOf (groupPlan now2 (groupPlan now1 g)) = assignOf (groupPlan now1 g) := by
  cases h : sortCron g with
  | nil =>
    have h1 : groupPlan now1 g = [] := by unfold groupPlan; rw [h]
    rw [h1]; rfl
  | cons p ls =>
    have h1 : groupPlan now1 g =
        primaryTransition now1 p :: ls.map (loserTransitionCron now1) := by
      unfold groupPlan; rw [h]
    have hconst : ∀ x ∈ groupPlan now1 g, effActivityCron x = now1 := by
      rw [h1]
      intro x hx
      rcases List.mem_cons.1 hx with rfl | hx2
      · rfl
      · rcases List.mem_map.1 hx2 with ⟨d, _, rfl⟩; rfl
    have hsort : sortCron (groupPlan now1 g) = groupPlan now1 g :=
      stableSort_const effActivityCron now1 _ hconst
    have key : ∀ X : List DeviceRecord,
        sortCron X = primaryTransition now1 p :: ls.map (loserTransitionCron now1) →
        groupPlan now2 X = primaryTransition now2 (primaryTransition now1 p) ::
          (ls.map (loserTransitionCron now1)).map (loserTransitionCron now2) := by
      intro X hX
      unfold groupPlan
      rw [hX]
    have h2 := key (groupPlan now1 g) (by rw [hsort]; exact h1)
    rw [h2, h1]
    unfold assignOf
    simp only [List.map_cons, List.map_map]
    rfl

/-- Claim C2 counterexample: two records with equal effective timestamps,
where record 2 is both already active and of lower id; the pass still keeps
record 5 (first in query order) and deactivates record 2, so the claimed
active-then-lowest-id tie-break does not hold. -/
theorem tie_break_ignores_active_and_id :
    tB.active = true ∧ tA.active = false ∧ tB.id < tA.id ∧
    effActivityCron tA = effActivityCron tB ∧
    ((device_cleanup_run [tA, tB] 100 noFail).find? (fun r => r.id == 2)).map
        (fun r => r.active) = some false ∧
    ((device_cleanup_run [tA, tB] 100 noFail).find? (fun r => r.id == 5)).map
        (fun r => r.active) = some true := by
  decide

/-- Claim C2 (amended): the batch sweep's primary is the first group member
in considered order attaining the maximal effective timestamp (ties break
by input position, not by active flag or id), and the single-insert fold
likewise keeps the incumbent on ties; selection is deterministic given the
considered order. -/
theorem primary_is_first_max :
    (∀ (now : Nat) (g : List DeviceRecord), g ≠ [] →
      ∃ p, firstMax effActivityCron g = some p ∧
        (groupPlan now g).head? = some (primaryTransition now p)) ∧
    (∀ (newDevice d : DeviceRecord) (now : Nat),
      effActivityCron d ≤ newRecordActivity newDevice now →
      (selectPrimary newDevice [d] now).1 = newDevice) := by
  constructor
  · intro now g hg
    have hhead : (sortCron g).head? = firstMax effActivityCron g :=
      stableSort_head effActivityCron g
    cases h : sortCron g with
    | nil => exact absurd ((stableSort_eq_nil _ g).1 h) hg
    | cons p ls =>
      refine ⟨p, ?_, ?_⟩
      · rw [← hhead, h]; rfl
      · unfold groupPlan; rw [h]; rfl
  · intro newDevice d now h
    show (if newRecordActivity newDevice now < effActivityCron d
          then (d, effActivityCron d)
          else (newDevice, newRecordActivity newDevice now)).1 = newDevice
    rw [if_neg (Nat.not_lt.2 h)]

/-- Claim C2 (amended) witness: a concrete timestamp-tied pair. -/
theorem primary_is_first_max_witness :
    ∃ p, firstMax effActivityCron [tA, tB] = some p ∧
      (groupPlan 100 [tA, tB]).head? = some (primaryTransition 100 p) :=
  primary_is_first_max.1 100 [tA, tB] (by decide)

/-- Claim C3 counterexample: record xX has no last_activity, last_used 50
and created 10.  The claimed priority order ranks it at 50, but the
simple_test sweep ranks it at 10 (it skips last_used) and therefore
deactivates xX instead of its sibling with effective timestamp 20. -/
theorem simple_sweep_ignores_lastUsed :
    effActivityCron xX = 50 ∧ effActivitySimple xX = 10 ∧
    effActivityCron xY = 20 ∧
    (simple_test_plan (simpleQuery [xX, xY]) 100).map (fun r => r.id) = [1] := by
  decide

/-- Claim C3 (amended): the batch sweep (and existing records in the
single-insert hook) rank by lastActivity, else lastUsed, else created; the
simple_test sweep ranks by lastActivity else created, skipping lastUsed;
and the single-insert hook ranks the newly created record by lastUsed else
created else now, skipping lastActivity. -/
theorem effective_activity_priority :
    (∀ (r : DeviceRecord) (t : Nat), r.lastActivity = some t →
      effActivityCron r = t) ∧
    (∀ (r : DeviceRecord) (u : Nat), r.lastActivity = none → r.lastUsed = some u →
      effActivityCron r = u) ∧
    (∀ (r : DeviceRecord) (c : Nat), r.lastActivity = none → r.lastUsed = none →
      r.created = some c → effActivityCron r = c) ∧
    (∀ (r : DeviceRecord) (c : Nat), r.lastActivity = none → r.created = some c →
      effActivitySimple r = c) ∧
    (∀ (r : DeviceRecord) (u now : Nat), r.lastUsed = some u →
      newRecordActivity r now = u) := by
  refine ⟨?_, ?_, ?_, ?_, ?_⟩
  · intro r t h
    unfold effActivityCron
    rw [h]; rfl
  · intro r u h1 h2
    unfold effActivityCron
    rw [h1, h2]; rfl
  · intro r c h1 h2 h3
    unfold effActivityCron
    rw [h1, h2, h3]; rfl
  · intro r c h1 h2
    unfold effActivitySimple
    rw [h1, h2]; rfl
  · intro r u now h
    unfold newRecordActivity
    rw [h]; rfl

/-- Claim C3 (amended) witness: the priority chains evaluated on xX. -/
theorem effective_activity_priority_witness :
    effActivityCron xX = 50 ∧ newRecordActivity xX 7 = 50 ∧
    effActivitySimple xX = 10 :=
  ⟨effective_activity_priority.2.1 xX 50 rfl rfl,
   effective_activity_priority.2.2.2.2 xX 50 7 rfl,
   effective_activity_priority.2.2.2.1 xX 10 rfl rfl⟩

/-- Claim C4 counterexample: the simple_test sweep's loser transition
leaves current_user_id, current_session_start and notes untouched — the
deactivated record 2 keeps user 7, session start 3 and notes n, with no
audit note appended. -/
theorem light_loser_keeps_user_and_notes :
    ((simple_test_plan [pP, pL] 100).head?).map
        (fun r => (r.id, r.currentUserId, r.sessionStart, r.notes)) =
      some (2, some 7, some 3, some "n") ∧
    (simple_test_plan [pP, pL] 100).length = 1 := by
  decide

/-- Claim C4 (amended): in the daily batch sweep every non-primary member
of a processed duplicate group receives the full loser transition
(deactivated, logged_out, user and session start cleared, stamped, audit
note appended); the simple sweep and the single-insert hook only apply the
light transition, leaving user, session start and notes unchanged. -/
theorem batch_loser_full_transition :
    (∀ (devices : List DeviceRecord) (now : Nat) (fp : String), fp ≠ "" →
      1 < (groupOf devices fp).length →
      ∀ d ∈ (sortCron (groupOf devices fp)).drop 1,
        ∃ s ∈ device_cleanup_plan devices now,
          s.id = d.id ∧ s.active = false ∧ s.sessionStatus = "logged_out" ∧
          s.currentUserId = none ∧ s.sessionStart = none ∧
          s.lastActivity = some now ∧
          s.notes = some (appendNote d.notes (cleanupNote now))) ∧
    (∀ (now : Nat) (r : DeviceRecord),
      (loserTransitionLight now r).active = false ∧
      (loserTransitionLight now r).sessionStatus = "logged_out" ∧
      (loserTransitionLight now r).lastActivity = some now ∧
      (loserTransitionLight now r).currentUserId = r.currentUserId ∧
      (loserTransitionLight now r).sessionStart = r.sessionStart ∧
      (loserTransitionLight now r).notes = r.notes) := by
  constructor
  · intro devices now fp hfp hlen d hd
    obtain ⟨d0, hd0⟩ : ∃ d0, d0 ∈ groupOf devices fp := by
      cases hG : groupOf devices fp with
      | nil => rw [hG] at hlen; simp at hlen
      | cons a l => exact ⟨a, List.mem_cons_self a l⟩
    have hd0m := (mem_groupOf devices fp d0).1 hd0
    have hfps : fp ∈ fps devices :=
      (mem_fps devices fp).2 ⟨d0, hd0m.1, hd0m.2, hfp⟩
    have hgp : loserTransitionCron now d ∈ groupPlan now (groupOf devices fp) := by
      cases h : sortCron (groupOf devices fp) with
      | nil => rw [h] at hd; simp at hd
      | cons p ls =>
        rw [h] at hd
        have hd2 : d ∈ ls := by simpa using hd
        unfold groupPlan
        rw [h]
        exact List.mem_cons_of_mem _ (List.mem_map_of_mem _ hd2)
    refine ⟨loserTransitionCron now d, ?_, rfl, rfl, rfl, rfl, rfl, rfl, rfl⟩
    unfold device_cleanup_plan
    exact (mem_concatMap _ _ _).2 ⟨fp, hfps, by rw [if_pos hlen]; exact hgp⟩
  · intro now r
    exact ⟨rfl, rfl, rfl, rfl, rfl, rfl⟩

/-- Claim C4 (amended) witness: the full transition of loser fL1 in a
concrete three-record group. -/
theorem batch_loser_full_transition_witness :
    ∃ s ∈ device_cleanup_plan [fP, fL1, fL2] 100,
      s.id = fL1.id ∧ s.active = false ∧ s.sessionStatus = "logged_out" ∧
      s.currentUserId = none ∧ s.sessionStart = none ∧
      s.lastActivity = some 100 ∧
      s.notes = some (appendNote fL1.notes (cleanupNote 100)) :=
  batch_loser_full_transition.1 [fP, fL1, fL2] 100 "f" (by decide) (by decide) fL1
    (by decide)

/-- Claim C5 counterexample: in the batch sweep a failing save of record 2
aborts the rest of the pass (single pass-wide try/catch), so record 3 of
the same group stays active, while a failure-free run deactivates it. -/
theorem save_failure_aborts_rest_of_pass :
    ((device_cleanup_run [fP, fL1, fL2] 100 failsAt2).find? (fun r => r.id == 3)).map
        (fun r => r.active) = some true ∧
    ((device_cleanup_run [fP, fL1, fL2] 100 noFail).find? (fun r => r.id == 3)).map
        (fun r => r.active) = some false := by
  decide

/-- Claim C5 (amended): the batch sweep's pass-wide try/catch persists
exactly the plan's longest failure-free prefix (the cron job survives and
retries next midnight, but later records and groups of the same pass are
not processed); only the monthly archival pass has per-record containment,
persisting every non-failing record. -/
theorem save_failure_semantics :
    ∀ (fails : Nat → Bool) (plan : List DeviceRecord),
      runSavesAbort fails plan = plan.takeWhile (fun r => !(fails r.id)) ∧
      runSavesSkip fails plan = plan.filter (fun r => !(fails r.id)) := by
  intro fails plan
  induction plan with
  | nil => exact ⟨rfl, rfl⟩
  | cons r rs ih =>
    cases h : fails r.id <;>
      simp [runSavesAbort, runSavesSkip, h, ih.1, ih.2, List.takeWhile_cons,
        List.filter_cons]

/-- Claim C6 counterexample: the single-insert hook physically deletes the
newly created record 10 when the existing record wins the group. -/
theorem single_insert_deletes_new_record :
    Effect.del 10 ∈ singleInsert_effects dN [dE] 100 ∧ dN.id = 10 := by
  decide

/-- Claim C6 (amended): the batch, simple and monthly passes emit saves
only (deactivation, never deletion); the single-insert hook is the one
exception, and the only record it ever deletes is the newly created one. -/
theorem delete_only_new_record :
    (∀ (devices : List DeviceRecord) (now : Nat) (e : Effect),
      e ∈ device_cleanup_effects devices now → ∃ r, e = Effect.save r) ∧
    (∀ (devices : List DeviceRecord) (now : Nat) (e : Effect),
      e ∈ simple_test_effects devices now → ∃ r, e = Effect.save r) ∧
    (∀ (devices : List DeviceRecord) (now : Nat) (e : Effect),
      e ∈ monthly_cleanup_effects devices now → ∃ r, e = Effect.save r) ∧
    (∀ (newDevice : DeviceRecord) (existing : List DeviceRecord) (now i : Nat),
      Effect.del i ∈ singleInsert_effects newDevice existing now →
      i = newDevice.id) := by
  refine ⟨?_, ?_, ?_, ?_⟩
  · intro devices now e he
    unfold device_cleanup_effects at he
    rcases List.mem_map.1 he with ⟨r, _, rfl⟩
    exact ⟨r, rfl⟩
  · intro devices now e he
    unfold simple_test_effects at he
    rcases List.mem_map.1 he with ⟨r, _, rfl⟩
    exact ⟨r, rfl⟩
  · intro devices now e he
    unfold monthly_cleanup_effects at he
    rcases List.mem_map.1 he with ⟨r, _, rfl⟩
    exact ⟨r, rfl⟩
  · intro newDevice existing now i hi
    unfold singleInsert_effects at hi
    by_cases h1 : hasFingerprint newDevice = true
    · rw [if_pos h1] at hi
      by_cases h2 : existing.isEmpty = true
      · rw [if_pos h2] at hi
        simp at hi
      · rw [if_neg h2] at hi
        by_cases h3 : (selectPrimary newDevice existing now).1.id ≠ newDevice.id
        · rw [if_pos h3] at hi
          rcases List.mem_cons.1 hi with hh | hi2
          · exact absurd hh (by simp)
          rcases List.mem_cons.1 hi2 with hh | hi3
          · injection hh
          · rcases List.mem_map.1 hi3 with ⟨d, _, hd⟩
            exact absurd hd (by simp)
        · rw [if_neg h3] at hi
          rcases List.mem_cons.1 hi with hh | hi2
          · exact absurd hh (by simp)
          · rcases List.mem_map.1 hi2 with ⟨d, _, hd⟩
            exact absurd hd (by simp)
    · rw [if_neg h1] at hi
      simp at hi

/-- Claim C6 (amended) witness: the concrete delete of the single-insert
hook targets the new record's id. -/
theorem delete_only_new_record_witness : (10 : Nat) = dN.id :=
  delete_only_new_record.2.2.2 dN [dE] 100 10 (by decide)

/-- Claim C7: in single-insert mode, when an existing record wins, the new
record's userId is merged onto the winning record, which is activated and
stamped, and this save precedes the delete of the new record. -/
theorem merge_userId_before_delete (newDevice : DeviceRecord)
    (existing : List DeviceRecord) (now : Nat)
    (hfp : hasFingerprint newDevice = true) (hne : existing ≠ [])
    (hp : (selectPrimary newDevice existing now).1.id ≠ newDevice.id) :
    ∃ merged rest, singleInsert_effects newDevice existing now =
        Effect.save merged :: Effect.del newDevice.id :: rest ∧
      merged.id = (selectPrimary newDevice existing now).1.id ∧
      merged.userId = newDevice.userId ∧
      merged.currentUserId = newDevice.userId ∧
      merged.active = true ∧
      merged.lastActivity = some now ∧
      merged.sessionStart = some now := by
  have hemp : existing.isEmpty = false := by
    cases existing with
    | nil => exact absurd rfl hne
    | cons a l => rfl
  refine ⟨mergeIntoPrimary newDevice (selectPrimary newDevice existing now).1 now,
    (existing.filter (fun d => d.id != (selectPrimary newDevice existing now).1.id)).map
      (fun d => Effect.save (loserTransitionLight now d)),
    ?_, rfl, rfl, rfl, rfl, rfl, rfl⟩
  unfold singleInsert_effects
  rw [if_pos hfp, hemp, if_neg Bool.false_ne_true, if_pos hp]

/-- Claim C7 witness: a concrete single insert whose sibling wins. -/
theorem merge_userId_before_delete_witness :
    ∃ merged rest, singleInsert_effects dN [dE] 100 =
        Effect.save merged :: Effect.del dN.id :: rest ∧
      merged.id = (selectPrimary dN [dE] 100).1.id ∧
      merged.userId = dN.userId ∧
      merged.currentUserId = dN.userId ∧
      merged.active = true ∧
      merged.lastActivity = some 100 ∧
      merged.sessionStart = some 100 :=
  merge_userId_before_delete dN [dE] 100 (by decide) (by decide) (by decide)

/-- Claim C8 counterexample: the batch sweep queries without any session
status filter, so the archived record 1, grouped with a live duplicate,
has its sessionStatus overwritten to logged_out — archived is not
terminal under the batch sweep. -/
theorem batch_sweep_unarchives_duplicate :
    aAr.sessionStatus = "archived" ∧
    ((device_cleanup_run [aAr, aFr] 100 noFail).find? (fun r => r.id == 1)).map
        (fun r => r.sessionStatus) = some "logged_out" := by
  decide

/-- Claim C8 (amended): the monthly pass only ever writes sessionStatus =
archived (so it never un-archives), and the batch sweep leaves a record
untouched when its fingerprint group among the considered records has at
most one member; but a record inside a duplicate group — archived or not —
gets its sessionStatus rewritten by the batch sweep. -/
theorem archived_stable_outside_duplicates :
    (∀ (devices : List DeviceRecord) (now : Nat),
      ∀ s ∈ monthly_cleanup_plan devices now, s.sessionStatus = "archived") ∧
    (∀ (devices : List DeviceRecord) (now : Nat) (r : DeviceRecord),
      (∀ d ∈ devices, d.id = r.id → d = r) →
      (devices.filter (fun d => d.fingerprint == r.fingerprint)).length ≤ 1 →
      ∀ s ∈ device_cleanup_plan devices now, s.id ≠ r.id) := by
  constructor
  · intro devices now s hs
    unfold monthly_cleanup_plan at hs
    rcases List.mem_map.1 hs with ⟨d, _, rfl⟩
    rfl
  · intro devices now r hid hgrp s hs heq
    rcases device_cleanup_plan_source devices now s hs with
      ⟨fp, hfps, hlen, d, hdg, hsid⟩
    have hdm := (mem_groupOf devices fp d).1 hdg
    have hdr : d = r := hid d hdm.1 (by rw [← hsid]; exact heq)
    have hrf : r.fingerprint = some fp := hdr ▸ hdm.2
    have hEq : groupOf devices fp =
        devices.filter (fun d => d.fingerprint == r.fingerprint) := by
      unfold groupOf
      rw [hrf]
    rw [hEq] at hlen
    omega

/-- Claim C8 (amended) witness: the sweep of a store holding an archived
record with a unique fingerprint and an unrelated duplicate pair never
writes the archived record's id. -/
theorem archived_stable_outside_duplicates_witness :
    (primaryTransition 5 wD1).id ≠ wAr.id :=
  archived_stable_outside_duplicates.2 [wAr, wD1, wD2] 5 wAr (by decide) (by decide)
    (primaryTransition 5 wD1) (by decide)

/-- Claim C9: a record whose fingerprint is empty or absent is excluded
from grouping by every pass and is never mutated: the batch sweep leaves
it in the store unchanged, the simple sweep never saves its id, the
single-insert hook does nothing when the new record has no fingerprint,
and its sibling query can never return a fingerprint-less record. -/
theorem no_fingerprint_untouched :
    (∀ (devices store : List DeviceRecord) (now : Nat) (r : DeviceRecord),
      hasFingerprint r = false → (∀ d ∈ devices, d.id = r.id → d = r) →
      r ∈ store → r ∈ applySaves (device_cleanup_plan devices now) store) ∧
    (∀ (devices : List DeviceRecord) (now : Nat) (r : DeviceRecord),
      hasFingerprint r = false → (∀ d ∈ devices, d.id = r.id → d = r) →
      ∀ s ∈ simple_test_plan devices now, s.id ≠ r.id) ∧
    (∀ (newDevice : DeviceRecord) (existing : List DeviceRecord) (now : Nat),
      hasFingerprint newDevice = false →
      singleInsert_effects newDevice existing now = []) ∧
    (∀ (store : List DeviceRecord) (newDevice r : DeviceRecord),
      hasFingerprint r = false → hasFingerprint newDevice = true →
      r ∉ singleInsertQuery store newDevice) := by
  refine ⟨?_, ?_, ?_, ?_⟩
  · intro devices store now r hfp hid hr
    apply applySaves_frame r (device_cleanup_plan devices now) store hr
    intro s hs heq
    rcases device_cleanup_plan_source devices now s hs with
      ⟨fp, hfps, hlen, d, hdg, hsid⟩
    have hdm := (mem_groupOf devices fp d).1 hdg
    have hdr : d = r := hid d hdm.1 (by rw [← hsid]; exact heq)
    have hrf : r.fingerprint = some fp := hdr ▸ hdm.2
    rcases (mem_fps devices fp).1 hfps with ⟨d0, _, _, hfpne⟩
    have htrue : hasFingerprint r = true := by
      unfold hasFingerprint
      rw [hrf]
      simp [hfpne]
    rw [hfp] at htrue
    exact Bool.noConfusion htrue
  · intro devices now r hfp hid s hs heq
    rcases simple_test_plan_source devices now s hs with
      ⟨fp, hfps, hlen, d, hdg, hsid⟩
    have hdm := (mem_groupOf devices fp d).1 hdg
    have hdr : d = r := hid d hdm.1 (by rw [← hsid]; exact heq)
    have hrf : r.fingerprint = some fp := hdr ▸ hdm.2
    rcases (mem_fps devices fp).1 hfps with ⟨d0, _, _, hfpne⟩
    have htrue : hasFingerprint r = true := by
      unfold hasFingerprint
      rw [hrf]
      simp [hfpne]
    rw [hfp] at htrue
    exact Bool.noConfusion htrue
  · intro newDevice existing now hfp
    unfold singleInsert_effects
    rw [if_neg (by simp [hfp])]
  · intro store newDevice r hfr hfn hmem
    unfold singleInsertQuery at hmem
    have h1 : r ∈ stableSort (fun a b => !(keyLt2 a b))
        (store.filter (fun d =>
          d.fingerprint == newDevice.fingerprint && d.id != newDevice.id)) :=
      List.take_subset _ _ hmem
    have h2 := (mem_stableSort _ r _).1 h1
    have h3 := (List.mem_filter.1 h2).2
    rw [Bool.and_eq_true] at h3
    have h5 : r.fingerprint = newDevice.fingerprint := by simpa using h3.1
    have h6 := hasFingerprint_of_eq r newDevice h5
    rw [hfr, hfn] at h6
    exact Bool.noConfusion h6

/-- Claim C9 witness: a fingerprint-less record rides through a batch sweep
of a store that also holds a duplicate pair. -/
theorem no_fingerprint_untouched_witness :
    nF ∈ applySaves (device_cleanup_plan [nF, wD1, wD2] 7) [nF, wD1, wD2] :=
  no_fingerprint_untouched.1 [nF, wD1, wD2] [nF, wD1, wD2] 7 nF (by decide)
    (by decide) (by decide)

/-- Claim C10: the batch sweep queries at most 500 records, the
single-insert hook at most 50 siblings, the simple sweep at most 10, and
every record saved by the batch sweep carries the id of a queried record,
so records beyond the query limit are never reconciled in that pass. -/
theorem pass_considers_bounded_window :
    ∀ (store : List DeviceRecord) (newDevice : DeviceRecord) (now : Nat),
      (cronQuery store).length ≤ 500 ∧
      (singleInsertQuery store newDevice).length ≤ 50 ∧
      (simpleQuery store).length ≤ 10 ∧
      (∀ s ∈ device_cleanup_plan (cronQuery store) now,
        ∃ d ∈ cronQuery store, s.id = d.id) := by
  intro store newDevice now
  refine ⟨?_, ?_, ?_, ?_⟩
  · unfold cronQuery
    exact List.length_take_le _ _
  · unfold singleInsertQuery
    exact List.length_take_le _ _
  · unfold simpleQuery
    exact List.length_take_le _ _
  · intro s hs
    rcases device_cleanup_plan_source _ now s hs with ⟨fp, _, _, d, hdg, hsid⟩
    exact ⟨d, ((mem_groupOf _ fp d).1 hdg).1, hsid⟩

/-- Claim C10 witness: the bounds and the prefix property on a concrete
two-record store. -/
theorem pass_considers_bounded_window_witness :
    (cronQuery [cA, cB]).length ≤ 500 ∧
    (singleInsertQuery [cA, cB] dN).length ≤ 50 ∧
    (simpleQuery [cA, cB]).length ≤ 10 ∧
    (∃ d ∈ cronQuery [cA, cB], (primaryTransition 3 cB).id = d.id) :=
  ⟨(pass_considers_bounded_window [cA, cB] dN 3).1,
   (pass_considers_bounded_window [cA, cB] dN 3).2.1,
   (pass_considers_bounded_window [cA, cB] dN 3).2.2.1,
   (pass_considers_bounded_window [cA, cB] dN 3).2.2.2 (primaryTransition 3 cB)
     (by decide)⟩

end DeviceHooks
